import Mathlib

/-!
Verification development for the `images-api` content-loading pipeline
(`src/scripts/load_content.py`).

The Python source is shallowly embedded: external effects (filesystem
`stat`, `os.path.getsize`, the `mdls`/`xattr`/`identify`/`ffprobe`
subprocess probes, JSON parsing, and the store's `insert_many`) are
supplied by an environment record whose fields return `Except String _`,
mirroring the fact that each call either produces a value or raises.
Python `try`/`except Exception` blocks become explicit matches on those
`Except` values.  Wall-clock timing is abstracted: every recorded
duration is a `Nat` supplied by the stream (per-file durations) or `0`
where the source only measures elapsed time for reporting.
-/

namespace LoadContent

/-! ### Python string primitives used by the script -/

/-- Python `str.startswith` with a dot pattern, on the code points of a string; empty strings
do not start with a dot, as in Python. -/
def py_startswith_dot (s : String) : Bool :=
  match s.toList with
  | [] => false
  | c :: _ => c == '.'

/-- Character-list prefix test (`s.startswith(pre)` with pattern first). -/
def listStartsWith : List Char → List Char → Bool
  | [], _ => true
  | _ :: _, [] => false
  | p :: ps, c :: cs => p == c && listStartsWith ps cs

/-- Python `s.startswith(pre)` for a general pattern. -/
def py_startswith (s pre : String) : Bool :=
  listStartsWith pre.toList s.toList

/-- Helper for `os.path.basename`: keep the run of characters after the
last `/`. -/
def py_basename_aux (acc : List Char) : List Char → List Char
  | [] => acc.reverse
  | c :: cs => if c == '/' then py_basename_aux [] cs else py_basename_aux (c :: acc) cs

/-- Python `os.path.basename`: the part of the path after the final `/`. -/
def py_basename (p : String) : String :=
  String.mk (py_basename_aux [] p.toList)

/-- Python test `'=' in line`. -/
def containsEq (cs : List Char) : Bool :=
  cs.any (fun c => c == '=')

/-- Python `line.split` with separator `=` and maxsplit 1: the text before the first `=` and the text
after it (assuming the separator occurs, as guarded in the source). -/
def splitOnceEq (cs : List Char) : List Char × List Char :=
  match cs with
  | [] => ([], [])
  | c :: rest =>
    if c == '=' then ([], rest)
    else
      let (l, r) := splitOnceEq rest
      (c :: l, r)

/-- Python `result.stdout.split` on newline. -/
def splitLinesAux (acc : List Char) : List Char → List (List Char)
  | [] => [acc.reverse]
  | c :: cs => if c == '\n' then acc.reverse :: splitLinesAux [] cs else splitLinesAux (c :: acc) cs

def splitLines (s : String) : List (List Char) :=
  splitLinesAux [] s.toList

/-- Python `str.strip`: remove leading and trailing whitespace. -/
def py_strip (cs : List Char) : String :=
  String.mk (((cs.dropWhile Char.isWhitespace).reverse.dropWhile Char.isWhitespace).reverse)

/-- Python `dict` update `attrs[key] = value`: overwrite an existing key
or append a fresh binding. -/
def dictSet (m : List (String × String)) (k v : String) : List (String × String) :=
  if m.any (fun p => p.1 == k) then
    m.map (fun p => if p.1 == k then (k, v) else p)
  else m ++ [(k, v)]

/-! ### Environment: the external world seen by one run -/

/-- Result of `os.stat`: the base attributes recorded in a document
(`size`, `created`, `modified`, `accessed`). -/
structure BaseAttributes where
  size : Nat
  created : Int
  modified : Int
  accessed : Int
deriving Repr, DecidableEq

/-- A simple string-keyed map standing for the JSON/attribute dicts the
probes return. -/
abbrev AttrMap := List (String × String)

/-- Environment for the per-file extractor: each field models one
external call on a given path.  Subprocess invocations yield either an
exception (`.error`) or an exit code with captured stdout. -/
structure FileEnv where
  /-- Result of `mimetypes.guess_type(file_path)[0]`; `none` when no type maps. -/
  contentTypeOf : String → Option String
  /-- Call `os.stat(file_path)`. -/
  statOf : String → Except String BaseAttributes
  /-- Call of `subprocess.run` on `mdls`. -/
  mdlsRun : String → Except String (Int × String)
  /-- Call of `subprocess.run` on `xattr -l`. -/
  xattrRun : String → Except String (Int × String)
  /-- Call of `subprocess.run` on `identify -verbose`. -/
  identifyRun : String → Except String (Int × String)
  /-- Call of `subprocess.run` on `ffprobe`. -/
  ffprobeRun : String → Except String (Int × String)
  /-- Call of `json.loads` on ffprobe stdout; may raise on malformed output. -/
  jsonLoads : String → Except String AttrMap

/-- Python `try body except Exception: handler` in the `Except` embedding. -/
def pyTry {α : Type} (body : Except String α) (handler : String → Except String α) :
    Except String α :=
  match body with
  | .ok a => .ok a
  | .error e => handler e

/-- Boolean success test for an `Except` value. -/
def isOkE {ε α : Type} : Except ε α → Bool
  | .ok _ => true
  | .error _ => false

/-! ### The extractor (`process_file` and its probe helpers) -/

/-- Function `get_mdls_attributes` (load_content.py:45-59): run `mdls`; on exit
code 0 parse `key = value` lines into a dict; any exception or non-zero
exit yields the empty dict. -/
def get_mdls_attributes (run : Except String (Int × String)) : AttrMap :=
  match run with
  | .error _ => []
  | .ok (rc, out) =>
    if rc == 0 then
      (splitLines out).foldl
        (fun attrs line =>
          if containsEq line then
            let (key, value) := splitOnceEq line
            dictSet attrs (py_strip key) (py_strip value)
          else attrs)
        []
    else []

/-- Function `get_xattr_attributes` (load_content.py:61-69). -/
def get_xattr_attributes (run : Except String (Int × String)) : AttrMap :=
  match run with
  | .error _ => []
  | .ok (rc, out) => if rc == 0 then [("xattr_data", out)] else []

/-- Function `get_image_metadata` (load_content.py:71-79). -/
def get_image_metadata (run : Except String (Int × String)) : AttrMap :=
  match run with
  | .error _ => []
  | .ok (rc, out) => if rc == 0 then [("identify_data", out)] else []

/-- Function `get_video_metadata` (load_content.py:81-89): on exit code 0 the
stdout is fed to `json.loads`, whose exception is caught by the same
handler and yields the empty dict. -/
def get_video_metadata (run : Except String (Int × String))
    (jsonLoads : String → Except String AttrMap) : AttrMap :=
  match run with
  | .error _ => []
  | .ok (rc, out) =>
    if rc == 0 then
      match jsonLoads out with
      | .ok m => m
      | .error _ => []
    else []

/-- Value of the single `extended_attributes` key: the two independent
probe dicts. -/
structure ExtendedAttributes where
  mdls : AttrMap
  xattr : AttrMap
deriving Repr, DecidableEq

/-- The document dict built by `process_file`; every key is optional
because the dict grows incrementally and an exception can leave it
partially built. -/
structure Document where
  file_path : Option String := none
  content_type : Option String := none
  base_attributes : Option BaseAttributes := none
  extended_attributes : Option ExtendedAttributes := none
  video_metadata : Option AttrMap := none
  image_metadata : Option AttrMap := none
deriving Repr, DecidableEq

/-- Python truthiness of the document dict: non-empty iff some key is
present. -/
def Document.nonempty (d : Document) : Bool :=
  d.file_path.isSome || d.content_type.isSome || d.base_attributes.isSome ||
  d.extended_attributes.isSome || d.video_metadata.isSome || d.image_metadata.isSome

/-- Function `process_file` (load_content.py:91-155).  The outer `try` catches
every exception and returns `(None, elapsed, {})`; the inner `try`
around the base/extended-attribute stages catches a `stat` failure and
lets the (still empty) dict proceed to the media stage.  Durations are
abstracted to `0`. -/
def process_file (env : FileEnv) (file_path : String) :
    Except String (Option Document × Nat × List String) :=
  pyTry
    (if py_startswith_dot (py_basename file_path) then
      -- Skip hidden files
      .ok (none, 0, [])
    else
      match env.contentTypeOf file_path with
      | none =>
        -- Could not determine content type
        .ok (none, 0, [])
      | some content_type =>
        let (doc0, timings0) :=
          match env.statOf file_path with
          | .error _ =>
            -- "Error getting base metadata": dict and timings keep their
            -- pre-exception (empty) values
            (({} : Document), ([] : List String))
          | .ok base =>
            let mdls_data := get_mdls_attributes (env.mdlsRun file_path)
            let xattr_data := get_xattr_attributes (env.xattrRun file_path)
            ({ file_path := some file_path
               content_type := some content_type
               base_attributes := some base
               extended_attributes := some { mdls := mdls_data, xattr := xattr_data } },
             ["base", "mdls", "xattr"])
        let (doc1, timings1) :=
          if py_startswith content_type "video/" then
            ({ doc0 with
                video_metadata := some (get_video_metadata (env.ffprobeRun file_path) env.jsonLoads) },
             timings0 ++ ["video"])
          else if py_startswith content_type "image/" then
            ({ doc0 with
                image_metadata := some (get_image_metadata (env.identifyRun file_path)) },
             timings0 ++ ["image"])
          else (doc0, timings0)
        .ok (some doc1, 0, timings1))
    (fun _ => .ok (none, 0, []))

/-! ### Backlog enumeration (`gather_files`) -/

/-- A directory: its name, its subdirectories and the basenames of the
plain files it holds directly.  This is the input `os.walk` traverses. -/
inductive FSTree where
  | dir (name : String) (subdirs : List FSTree) (files : List String)
deriving Repr

/-- Name component of a directory node. -/
def FSTree.name : FSTree → String
  | .dir n _ _ => n

mutual
/-- Function `gather_files` (load_content.py:161-171) relative to a node:
`os.walk` visits the current directory first and then every
subdirectory — the directory names are never inspected, so hidden-named
directories are descended into; only a file basename starting with a dot
is filtered out. -/
def gather_files (dirPath : String) : FSTree → List String
  | .dir _ subdirs files =>
      (files.filter (fun f => !py_startswith_dot f)).map (fun f => dirPath ++ "/" ++ f)
        ++ gatherSubdirs dirPath subdirs

/-- Walk of the subdirectory list, in order, with no filtering on the
directory name. -/
def gatherSubdirs (dirPath : String) : List FSTree → List String
  | [] => []
  | t :: ts => gather_files (dirPath ++ "/" ++ t.name) t ++ gatherSubdirs dirPath ts
end

/-- Location of a file inside a tree: the chain of subdirectory names
leading to it, ending at a file basename present in that directory. -/
inductive HasFile : FSTree → List String → String → Prop
  | here {n subs files f} : f ∈ files → HasFile (.dir n subs files) [] f
  | there {n subs files t ds f} : t ∈ subs → HasFile t ds f →
      HasFile (.dir n subs files) (t.name :: ds) f

/-- The absolute path `os.path.join` builds while walking down `ds` to
file `f`. -/
def joinPath (root : String) (ds : List String) (f : String) : String :=
  (ds.foldl (fun r d => r ++ "/" ++ d) root) ++ "/" ++ f

/-! ### The result-consumption loop of `main` -/

/-- One element of the pool result stream: the triple `process_file`
returns (`result, duration, timings`). -/
abbrev StreamItem := Option Document × Nat × List String

/-- Python truthiness of `result` in `if result:`: `None` and the empty
dict are falsy. -/
def pyTruthy : Option Document → Bool
  | none => false
  | some d => d.nonempty

/-- Environment of the coordinator loop: the backlog, `os.path.getsize`
(which may raise), and the outcome of the `k`-th `insert_many` call. -/
structure RunEnv where
  all_files : List String
  getsizeOf : String → Except String Nat
  insertMany : Nat → Except String Unit

/-- `BATCH_SIZE` (load_content.py:191). -/
def BATCH_SIZE : Nat := 20

/-- Mutable state of the result-consumption loop, plus the store
contents and observables needed by the verification: `store` is the
sequence of documents successfully written by `insert_many`,
`writes_attempted` counts `insert_many` calls, and `sizeReportPaths`
records, per progress line, the path whose size the line reported.
Counters are `Int` because the source decrements them on batch
failure. -/
structure LoopState where
  processed_count : Nat := 0
  total_processing_time : Nat := 0
  success_count : Int := 0
  error_count : Int := 0
  results_batch : List Document := []
  store : List Document := []
  writes_attempted : Nat := 0
  sizeReportPaths : List String := []
deriving Repr, DecidableEq

/-- Sum `sum(os.path.getsize(doc['file_path']) for doc in results_batch)`
computed for the batch-commit report line: raises on the first document
without a `file_path` key (KeyError) or whose `getsize` raises. -/
def batchSizeSum (env : RunEnv) : List Document → Except String Nat
  | [] => .ok 0
  | d :: ds =>
    match d.file_path with
    | none => .error "KeyError"
    | some p =>
      match env.getsizeOf p with
      | .error e => .error e
      | .ok n =>
        match batchSizeSum env ds with
        | .error e => .error e
        | .ok m => .ok (n + m)

/-- One iteration of the `for result, duration, timings in
pool.imap_unordered(...)` body (load_content.py:219-280).  The body is
wrapped in `try ... except Exception: error_count += 1`; inside our
embedding the only raising call before the success branch is
`os.path.getsize(all_files[processed_count-1])`, so its failure takes
the handler path.  A successful `insert_many` whose follow-up
batch-size computation raises is also caught by the inner handler
(load_content.py:269-273) and demotes the batch in the counters even
though the documents were stored. -/
def stepResult (env : RunEnv) (s : LoopState) (item : StreamItem) : LoopState :=
  let result := item.1
  let duration := item.2.1
  let s := { s with processed_count := s.processed_count + 1
                    total_processing_time := s.total_processing_time + duration }
  match env.getsizeOf (env.all_files.getD (s.processed_count - 1) "") with
  | .error _ =>
    -- "Error processing result": the except handler
    { s with error_count := s.error_count + 1 }
  | .ok _ =>
    let s := { s with
      sizeReportPaths := s.sizeReportPaths ++ [env.all_files.getD (s.processed_count - 1) ""] }
    match result with
    | some doc =>
      if doc.nonempty then
        let s := { s with results_batch := s.results_batch ++ [doc]
                          success_count := s.success_count + 1 }
        if s.results_batch.length ≥ BATCH_SIZE then
          match env.insertMany s.writes_attempted with
          | .error _ =>
            -- "Failed to insert batch"
            { s with error_count := s.error_count + s.results_batch.length
                     success_count := s.success_count - s.results_batch.length
                     results_batch := []
                     writes_attempted := s.writes_attempted + 1 }
          | .ok _ =>
            match batchSizeSum env s.results_batch with
            | .ok _ =>
              { s with store := s.store ++ s.results_batch
                       results_batch := []
                       writes_attempted := s.writes_attempted + 1 }
            | .error _ =>
              -- insert succeeded but the report line raised: same handler
              { s with store := s.store ++ s.results_batch
                       error_count := s.error_count + s.results_batch.length
                       success_count := s.success_count - s.results_batch.length
                       results_batch := []
                       writes_attempted := s.writes_attempted + 1 }
        else s
      else { s with error_count := s.error_count + 1 }
    | none => { s with error_count := s.error_count + 1 }

/-- Initial loop state (all counters zero, empty batch). -/
def initState : LoopState := {}

/-- The whole result-consumption loop: fold `stepResult` over the
stream of pool results. -/
def runLoop (env : RunEnv) (stream : List StreamItem) : LoopState :=
  stream.foldl (stepResult env) initState

/-- Final-batch insertion after the pool block
(load_content.py:293-313): executed only when control reaches it
normally; on failure the counters are adjusted and nothing further
happens (the batch list is not even cleared — the run is over). -/
def final_flush (env : RunEnv) (s : LoopState) : LoopState :=
  if s.results_batch.isEmpty then s
  else
    match env.insertMany s.writes_attempted with
    | .error _ =>
      -- "Failed to insert final batch"
      { s with error_count := s.error_count + s.results_batch.length
               success_count := s.success_count - s.results_batch.length
               writes_attempted := s.writes_attempted + 1 }
    | .ok _ =>
      match batchSizeSum env s.results_batch with
      | .ok _ =>
        { s with store := s.store ++ s.results_batch
                 writes_attempted := s.writes_attempted + 1 }
      | .error _ =>
        { s with store := s.store ++ s.results_batch
                 error_count := s.error_count + s.results_batch.length
                 success_count := s.success_count - s.results_batch.length
                 writes_attempted := s.writes_attempted + 1 }

/-- One run of `main` from the start of the consumption loop, with the
termination signal abstracted as `signalAfter`: `some k` means SIGINT
or SIGTERM is delivered after `k` results have been folded.  The
registered `signal_handler` (load_content.py:22-27) calls
`sys.exit(0)`, raising `SystemExit 0`, which is caught neither by
`except KeyboardInterrupt` nor by `except Exception`, so the final
flush is skipped and the process exit status is `0`.  An uninterrupted
run performs the final flush and `main` returns normally (exit status
`0`). -/
def pipelineRun (env : RunEnv) (stream : List StreamItem) (signalAfter : Option Nat) :
    LoopState × Int :=
  match signalAfter with
  | some k => (runLoop env (stream.take k), 0)
  | none => (final_flush env (runLoop env stream), 0)

/-- Number of truthy results in a stream: the successes the loop
accumulates into batches. -/
def countTruthy : List StreamItem → Nat
  | [] => 0
  | it :: rest => (if pyTruthy it.1 then 1 else 0) + countTruthy rest

/-! ### Concrete environments used to evaluate the model -/

/-- File environment where the content type always resolves to an image,
`stat` succeeds, and every subprocess probe raises. -/
def fenvT : FileEnv :=
  { contentTypeOf := fun _ => some "image/jpeg"
    statOf := fun _ => .ok { size := 100, created := 1, modified := 2, accessed := 3 }
    mdlsRun := fun _ => .error "probe raised"
    xattrRun := fun _ => .error "probe raised"
    identifyRun := fun _ => .error "probe raised"
    ffprobeRun := fun _ => .error "probe raised"
    jsonLoads := fun _ => .error "bad json" }

/-- File environment where no extension maps to a content type. -/
def fenvU : FileEnv :=
  { fenvT with contentTypeOf := fun _ => none }

/-- The degraded-but-successful document `process_file` produces under
`fenvT` for a non-hidden path. -/
def mkDoc (p : String) : Document :=
  { file_path := some p
    content_type := some "image/jpeg"
    base_attributes := some { size := 100, created := 1, modified := 2, accessed := 3 }
    extended_attributes := some { mdls := [], xattr := [] }
    image_metadata := some [] }

/-- Run environment where `getsize` and `insert_many` always succeed. -/
def renvT : RunEnv :=
  { all_files := ["/m/a.jpg", "/m/b.jpg"]
    getsizeOf := fun _ => .ok 5
    insertMany := fun _ => .ok () }

/-- Run environment whose store rejects every batch write. -/
def renvIF : RunEnv :=
  { renvT with insertMany := fun _ => .error "store down" }

/-! ### Shared helper lemmas -/

/-- A `try` whose handler returns normally always returns normally. -/
theorem pyTry_ok_handler {α : Type} (body : Except String α) (d : α) :
    ∃ r, pyTry body (fun _ => .ok d) = .ok r := by
  cases body with
  | ok a => exact ⟨a, rfl⟩
  | error e => exact ⟨d, rfl⟩

/-! ### Claims -/

/-- Claim C8: the single-file extraction is total — for every
environment and path, `process_file` returns a `(document-or-none,
duration, timings)` triple and never propagates an exception: the outer
handler converts any escaped exception into a `none` result, and the
inner handlers degrade the document instead of failing. -/
theorem c8_process_file_total (env : FileEnv) (p : String) :
    ∃ r, process_file env p = .ok r := by
  unfold process_file
  exact pyTry_ok_handler _ _

/-- Claim C2 (code bug in the source): an interrupted run exits with
status 0, not the non-zero status the specification requires, because
the registered `signal_handler` calls `sys.exit(0)`.  This theorem
evaluates the modelled pipeline at an interrupt delivered after any
number of results: the exit status is `0` and in particular is not
`1`. -/
theorem c2_interrupted_run_exits_zero (env : RunEnv) (stream : List StreamItem) (k : Nat) :
    (pipelineRun env stream (some k)).2 = 0 ∧ (pipelineRun env stream (some k)).2 ≠ 1 := by
  have h : (pipelineRun env stream (some k)).2 = 0 := rfl
  rw [h]
  exact ⟨rfl, by decide⟩

/-- Counterexample to claim C1 as stated: processing the hidden file
`/media/.DS_Store` produces no document (first conjunct) — but folding
that skip result into the loop increments the error counter from 0 to
1, so skips are NOT excluded from the failure count. -/
theorem c1_counterexample :
    process_file fenvT "/media/.DS_Store" = .ok (none, 0, [])
    ∧ (runLoop renvT [(none, 0, [])]).error_count = 1 := by
  constructor
  · rfl
  · rfl

/-- Claim C1 as amended: for every skipped file (hidden basename or
undetermined content type) the pipeline produces no document and stores
nothing for it, but the error counter is incremented by one: the loop
counts skips as failures (`else: error_count += 1`,
load_content.py:274-275). -/
theorem c1_skips_counted_as_failures (fenv : FileEnv) (renv : RunEnv) (s : LoopState)
    (p : String) (dur : Nat) (ts : List String)
    (hskip : py_startswith_dot (py_basename p) = true ∨ fenv.contentTypeOf p = none) :
    process_file fenv p = .ok (none, 0, [])
    ∧ (stepResult renv s (none, dur, ts)).error_count = s.error_count + 1
    ∧ (stepResult renv s (none, dur, ts)).success_count = s.success_count
    ∧ (stepResult renv s (none, dur, ts)).store = s.store
    ∧ (stepResult renv s (none, dur, ts)).results_batch = s.results_batch := by
  constructor
  · unfold process_file pyTry
    by_cases hb : py_startswith_dot (py_basename p) = true
    · simp [hb]
    · rcases hskip with h | h
      · exact absurd h hb
      · simp [hb, h]
  · unfold stepResult
    dsimp only
    split
    · exact ⟨rfl, rfl, rfl, rfl⟩
    · exact ⟨rfl, rfl, rfl, rfl⟩

/-- Witness for the amended claim C1, at a file whose extension maps to
no content type. -/
theorem c1_witness :
    process_file fenvU "/media/notes.xyz" = .ok (none, 0, [])
    ∧ (stepResult renvT initState (none, 0, [])).error_count = initState.error_count + 1
    ∧ (stepResult renvT initState (none, 0, [])).success_count = initState.success_count
    ∧ (stepResult renvT initState (none, 0, [])).store = initState.store
    ∧ (stepResult renvT initState (none, 0, [])).results_batch = initState.results_batch :=
  c1_skips_counted_as_failures fenvU renvT initState "/media/notes.xyz" 0 [] (Or.inr rfl)

/-- Claim C6: when the content type is determined and the base stat
succeeds, a document is produced even if every sub-probe raises; each
probe failure leaves an empty map (or, for the media field of the other
media class, an absent key), and the result stays truthy — it is never
turned into a failure. -/
theorem c6_probe_failures_still_document (env : FileEnv) (p ct : String)
    (base : BaseAttributes)
    (hhid : py_startswith_dot (py_basename p) = false)
    (hct : env.contentTypeOf p = some ct)
    (hstat : env.statOf p = .ok base)
    (hm : isOkE (env.mdlsRun p) = false)
    (hx : isOkE (env.xattrRun p) = false)
    (hi : isOkE (env.identifyRun p) = false)
    (hv : isOkE (env.ffprobeRun p) = false) :
    ∃ doc ts, process_file env p = .ok (some doc, 0, ts)
      ∧ doc.file_path = some p
      ∧ doc.content_type = some ct
      ∧ doc.base_attributes = some base
      ∧ doc.extended_attributes = some { mdls := [], xattr := [] }
      ∧ (doc.video_metadata = none ∨ doc.video_metadata = some [])
      ∧ (doc.image_metadata = none ∨ doc.image_metadata = some [])
      ∧ pyTruthy (some doc) = true := by
  cases hm' : env.mdlsRun p with
  | ok v => rw [hm'] at hm; simp [isOkE] at hm
  | error em =>
  cases hx' : env.xattrRun p with
  | ok v => rw [hx'] at hx; simp [isOkE] at hx
  | error ex =>
  cases hi' : env.identifyRun p with
  | ok v => rw [hi'] at hi; simp [isOkE] at hi
  | error ei =>
  cases hv' : env.ffprobeRun p with
  | ok v => rw [hv'] at hv; simp [isOkE] at hv
  | error ev =>
  by_cases hvid : py_startswith ct "video/"
  · refine ⟨{ file_path := some p, content_type := some ct, base_attributes := some base,
              extended_attributes := some { mdls := [], xattr := [] },
              video_metadata := some [] },
      ["base", "mdls", "xattr", "video"], ?_, rfl, rfl, rfl, rfl, Or.inr rfl, Or.inl rfl, rfl⟩
    simp [process_file, pyTry, hhid, hct, hstat, hm', hx', hi', hv', hvid,
      get_mdls_attributes, get_xattr_attributes, get_image_metadata, get_video_metadata]
  · by_cases himg : py_startswith ct "image/"
    · refine ⟨{ file_path := some p, content_type := some ct, base_attributes := some base,
                extended_attributes := some { mdls := [], xattr := [] },
                image_metadata := some [] },
        ["base", "mdls", "xattr", "image"], ?_, rfl, rfl, rfl, rfl, Or.inl rfl, Or.inr rfl, rfl⟩
      simp [process_file, pyTry, hhid, hct, hstat, hm', hx', hi', hv', hvid, himg,
        get_mdls_attributes, get_xattr_attributes, get_image_metadata, get_video_metadata]
    · refine ⟨{ file_path := some p, content_type := some ct, base_attributes := some base,
                extended_attributes := some { mdls := [], xattr := [] } },
        ["base", "mdls", "xattr"], ?_, rfl, rfl, rfl, rfl, Or.inl rfl, Or.inl rfl, rfl⟩
      simp [process_file, pyTry, hhid, hct, hstat, hm', hx', hi', hv', hvid, himg,
        get_mdls_attributes, get_xattr_attributes, get_image_metadata, get_video_metadata]

/-- Witness for claim C6: under `fenvT` (stat succeeds, every probe
raises) the image file is still turned into a document. -/
theorem c6_witness :
    ∃ doc ts, process_file fenvT "/media/a.jpg" = .ok (some doc, 0, ts)
      ∧ doc.file_path = some "/media/a.jpg"
      ∧ doc.content_type = some "image/jpeg"
      ∧ doc.base_attributes = some { size := 100, created := 1, modified := 2, accessed := 3 }
      ∧ doc.extended_attributes = some { mdls := [], xattr := [] }
      ∧ (doc.video_metadata = none ∨ doc.video_metadata = some [])
      ∧ (doc.image_metadata = none ∨ doc.image_metadata = some [])
      ∧ pyTruthy (some doc) = true :=
  c6_probe_failures_still_document fenvT "/media/a.jpg" "image/jpeg"
    { size := 100, created := 1, modified := 2, accessed := 3 }
    (by decide) rfl rfl rfl rfl rfl rfl

/-! ### Backlog enumeration claims -/

/-- Membership in the subdirectory walk: anything gathered under one
subdirectory is gathered by the parent, with no condition on the
subdirectory name. -/
theorem mem_gatherSubdirs (dirPath : String) (subs : List FSTree) (t : FSTree)
    (ht : t ∈ subs) (x : String)
    (hx : x ∈ gather_files (dirPath ++ "/" ++ t.name) t) :
    x ∈ gatherSubdirs dirPath subs := by
  induction subs with
  | nil => cases ht
  | cons hd tl ih =>
    rcases List.mem_cons.mp ht with h | h
    · subst h
      unfold gatherSubdirs
      exact List.mem_append.mpr (Or.inl hx)
    · unfold gatherSubdirs
      exact List.mem_append.mpr (Or.inr (ih h))

/-- Claim C10: backlog enumeration filters hidden files only by the
file's own basename — a file whose name does not start with a dot is
gathered no matter how many of the directory names above it start with
a dot (`os.walk` is never pruned, load_content.py:165-168). -/
theorem c10_hidden_dirs_not_pruned (root : String) (t : FSTree) (ds : List String)
    (f : String) (hf : HasFile t ds f) (hvis : py_startswith_dot f = false) :
    joinPath root ds f ∈ gather_files root t := by
  induction hf generalizing root with
  | here hmem =>
    unfold gather_files
    refine List.mem_append.mpr (Or.inl ?_)
    refine List.mem_map.mpr ⟨_, List.mem_filter.mpr ⟨hmem, ?_⟩, rfl⟩
    simp [hvis]
  | there hmemsub hsub ih =>
    unfold gather_files
    exact List.mem_append.mpr (Or.inr (mem_gatherSubdirs _ _ _ hmemsub _ (ih _ hvis)))

/-- Test tree: the only file sits inside the hidden-named directory
`.cache`. -/
def treeT : FSTree := .dir "media" [.dir ".cache" [] ["photo.jpg"]] []

/-- Witness for claim C10: `photo.jpg` under the hidden directory
`.cache` is gathered. -/
theorem c10_witness :
    joinPath "/srv" [".cache"] "photo.jpg" ∈ gather_files "/srv" treeT :=
  c10_hidden_dirs_not_pruned "/srv" treeT [".cache"] "photo.jpg"
    (HasFile.there (List.mem_cons_self _ _) (HasFile.here (List.mem_cons_self _ _)))
    (by decide)

/-! ### Loop lemmas shared by the batching and counter claims -/

/-- One step preserves the balance `processed = succeeded + failed`. -/
theorem stepResult_counters (env : RunEnv) (s : LoopState) (it : StreamItem)
    (h : (s.processed_count : Int) = s.success_count + s.error_count) :
    ((stepResult env s it).processed_count : Int)
      = (stepResult env s it).success_count + (stepResult env s it).error_count := by
  unfold stepResult
  dsimp only
  repeat' split
  all_goals (dsimp only; push_cast; omega)

/-- Folding any stream preserves the counter balance. -/
theorem foldl_counters (env : RunEnv) :
    ∀ (stream : List StreamItem) (s : LoopState),
      (s.processed_count : Int) = s.success_count + s.error_count →
      (((stream.foldl (stepResult env) s).processed_count : Int)
        = (stream.foldl (stepResult env) s).success_count
          + (stream.foldl (stepResult env) s).error_count) := by
  intro stream
  induction stream with
  | nil => intro s h; exact h
  | cons it rest ih => intro s h; exact ih _ (stepResult_counters env s it h)

/-- The final flush preserves the counter balance. -/
theorem final_flush_counters (env : RunEnv) (s : LoopState)
    (h : (s.processed_count : Int) = s.success_count + s.error_count) :
    ((final_flush env s).processed_count : Int)
      = (final_flush env s).success_count + (final_flush env s).error_count := by
  unfold final_flush
  repeat' split
  all_goals (try dsimp only)
  all_goals omega

/-- Claim C9: after folding any prefix of the result stream — and after
the final flush of an orderly run — `processed_count` equals
`success_count + error_count`; successful adds, skips and failures, and
batch-write failures (which move the batch size from success to error)
all preserve the balance. -/
theorem c9_counter_invariant (env : RunEnv) (stream : List StreamItem) (k : Nat) :
    (((runLoop env (stream.take k)).processed_count : Int)
      = (runLoop env (stream.take k)).success_count
        + (runLoop env (stream.take k)).error_count)
    ∧ (((pipelineRun env stream none).1.processed_count : Int)
      = (pipelineRun env stream none).1.success_count
        + (pipelineRun env stream none).1.error_count) := by
  constructor
  · exact foldl_counters env (stream.take k) initState (by decide)
  · exact final_flush_counters env (runLoop env stream)
      (foldl_counters env stream initState (by decide))

/-- One step appends exactly one progress line, reporting the backlog
entry at the submission-order index `processed_count - 1`, provided the
size lookup does not raise. -/
theorem stepResult_sizeReport (env : RunEnv)
    (hg : ∀ p, isOkE (env.getsizeOf p) = true) (s : LoopState) (it : StreamItem)
    (h : s.sizeReportPaths
      = (List.range s.processed_count).map (fun i => env.all_files.getD i "")) :
    (stepResult env s it).sizeReportPaths
        = (List.range (stepResult env s it).processed_count).map
            (fun i => env.all_files.getD i "")
      ∧ (stepResult env s it).processed_count = s.processed_count + 1 := by
  unfold stepResult
  dsimp only
  split
  · rename_i e heq
    have h2 := hg (env.all_files.getD (s.processed_count + 1 - 1) "")
    rw [heq] at h2
    simp [isOkE] at h2
  · repeat' split
    all_goals (try dsimp only)
    all_goals (refine ⟨?_, rfl⟩; simp [h, List.range_succ])

/-- Folding a stream: each consumed result appends one progress line,
and the lines list the backlog entries in submission order. -/
theorem foldl_sizeReport (env : RunEnv)
    (hg : ∀ p, isOkE (env.getsizeOf p) = true) :
    ∀ (stream : List StreamItem) (s : LoopState),
      s.sizeReportPaths
        = (List.range s.processed_count).map (fun i => env.all_files.getD i "") →
      ((stream.foldl (stepResult env) s).sizeReportPaths
          = (List.range (stream.foldl (stepResult env) s).processed_count).map
              (fun i => env.all_files.getD i "")
        ∧ (stream.foldl (stepResult env) s).processed_count
          = s.processed_count + stream.length) := by
  intro stream
  induction stream with
  | nil => intro s h; exact ⟨h, rfl⟩
  | cons it rest ih =>
    intro s h
    obtain ⟨h1, h2⟩ := stepResult_sizeReport env hg s it h
    obtain ⟨h3, h4⟩ := ih (stepResult env s it) h1
    rw [List.foldl_cons]
    refine ⟨h3, ?_⟩
    rw [h4, h2]
    simp only [List.length_cons]
    omega

/-- One step advances the flush cadence: the batch length stays the
truthy count modulo 20 and the number of `insert_many` calls stays the
truthy count divided by 20. -/
theorem stepResult_cadence (env : RunEnv)
    (hg : ∀ p, isOkE (env.getsizeOf p) = true) (s : LoopState) (it : StreamItem)
    (S : Nat) (hb : s.results_batch.length = S % 20)
    (hw : s.writes_attempted = S / 20) :
    (stepResult env s it).results_batch.length
        = (S + (if pyTruthy it.1 then 1 else 0)) % 20
      ∧ (stepResult env s it).writes_attempted
        = (S + (if pyTruthy it.1 then 1 else 0)) / 20 := by
  obtain ⟨result, dur, ts⟩ := it
  unfold stepResult
  dsimp only
  split
  · rename_i e heq
    have h2 := hg (env.all_files.getD (s.processed_count + 1 - 1) "")
    rw [heq] at h2
    simp [isOkE] at h2
  · cases result with
    | none =>
      rw [show (if pyTruthy (none, dur, ts).1 then (1 : Nat) else 0) = 0 from by
        simp [pyTruthy]]
      exact ⟨by simpa using hb, by simpa using hw⟩
    | some doc =>
      by_cases hne : doc.nonempty = true
      · rw [show (if pyTruthy (some doc, dur, ts).1 then (1 : Nat) else 0) = 1 from by
          simp [pyTruthy, hne]]
        dsimp only
        rw [if_pos hne]
        split
        · rename_i hge
          simp only [BATCH_SIZE, List.length_append, List.length_cons,
            List.length_nil] at hge
          repeat' split
          all_goals (try dsimp only)
          all_goals constructor
          all_goals
            (try simp only [List.length_append, List.length_cons, List.length_nil])
          all_goals omega
        · rename_i hlt
          simp only [BATCH_SIZE, List.length_append, List.length_cons,
            List.length_nil] at hlt
          dsimp only
          constructor
          · simp only [List.length_append, List.length_cons, List.length_nil]
            omega
          · omega
      · have hfalse : doc.nonempty = false := by
          cases hdn : doc.nonempty
          · rfl
          · exact absurd hdn hne
        rw [show (if pyTruthy (some doc, dur, ts).1 then (1 : Nat) else 0) = 0 from by
          simp [pyTruthy, hfalse]]
        dsimp only
        rw [if_neg hne]
        exact ⟨by simpa using hb, by simpa using hw⟩

/-- Folding a stream keeps the flush cadence aligned with the number of
truthy results seen so far. -/
theorem foldl_cadence (env : RunEnv)
    (hg : ∀ p, isOkE (env.getsizeOf p) = true) :
    ∀ (stream : List StreamItem) (s : LoopState) (S : Nat),
      s.results_batch.length = S % 20 → s.writes_attempted = S / 20 →
      ((stream.foldl (stepResult env) s).results_batch.length
          = (S + countTruthy stream) % 20
        ∧ (stream.foldl (stepResult env) s).writes_attempted
          = (S + countTruthy stream) / 20) := by
  intro stream
  induction stream with
  | nil => intro s S hb hw; exact ⟨by simpa using hb, by simpa using hw⟩
  | cons it rest ih =>
    intro s S hb hw
    obtain ⟨hb', hw'⟩ := stepResult_cadence env hg s it S hb hw
    have h := ih (stepResult env s it) (S + (if pyTruthy it.1 then 1 else 0)) hb' hw'
    have harith : S + countTruthy (it :: rest)
        = (S + (if pyTruthy it.1 then 1 else 0)) + countTruthy rest := by
      simp only [countTruthy]
      omega
    rw [List.foldl_cons, harith]
    exact h

/-- One step grows `store length + batch length` by one per truthy
result, when every insert succeeds. -/
theorem stepResult_storeLen (env : RunEnv)
    (hg : ∀ p, isOkE (env.getsizeOf p) = true)
    (hins : ∀ n, isOkE (env.insertMany n) = true) (s : LoopState) (it : StreamItem) :
    (stepResult env s it).store.length + (stepResult env s it).results_batch.length
      = s.store.length + s.results_batch.length
        + (if pyTruthy it.1 then 1 else 0) := by
  obtain ⟨result, dur, ts⟩ := it
  unfold stepResult
  dsimp only
  split
  · rename_i e heq
    have h2 := hg (env.all_files.getD (s.processed_count + 1 - 1) "")
    rw [heq] at h2
    simp [isOkE] at h2
  · cases result with
    | none =>
      rw [show (if pyTruthy (none, dur, ts).1 then (1 : Nat) else 0) = 0 from by
        simp [pyTruthy]]
      dsimp only
      omega
    | some doc =>
      by_cases hne : doc.nonempty = true
      · rw [show (if pyTruthy (some doc, dur, ts).1 then (1 : Nat) else 0) = 1 from by
          simp [pyTruthy, hne]]
        dsimp only
        rw [if_pos hne]
        split
        · split
          · rename_i e heq
            have h2 := hins s.writes_attempted
            rw [heq] at h2
            simp [isOkE] at h2
          · split
            all_goals (try dsimp only)
            all_goals
              (simp only [List.length_append, List.length_cons, List.length_nil];
                omega)
        · dsimp only
          simp only [List.length_append, List.length_cons, List.length_nil]
          omega
      · have hfalse : doc.nonempty = false := by
          cases hdn : doc.nonempty
          · rfl
          · exact absurd hdn hne
        rw [show (if pyTruthy (some doc, dur, ts).1 then (1 : Nat) else 0) = 0 from by
          simp [pyTruthy, hfalse]]
        dsimp only
        rw [if_neg hne]
        dsimp only
        omega

/-- Folding a stream: the combined store length and batch length counts
exactly the truthy results, when every insert succeeds. -/
theorem foldl_storeLen (env : RunEnv)
    (hg : ∀ p, isOkE (env.getsizeOf p) = true)
    (hins : ∀ n, isOkE (env.insertMany n) = true) :
    ∀ (stream : List StreamItem) (s : LoopState),
      (stream.foldl (stepResult env) s).store.length
          + (stream.foldl (stepResult env) s).results_batch.length
        = s.store.length + s.results_batch.length + countTruthy stream := by
  intro stream
  induction stream with
  | nil => intro s; simp [countTruthy]
  | cons it rest ih =>
    intro s
    rw [List.foldl_cons]
    rw [ih (stepResult env s it)]
    rw [stepResult_storeLen env hg hins s it]
    simp only [countTruthy]
    omega

/-! ### Batching and interruption claims -/

/-- Claim C4: when a batch store write fails, the failure counter grows
by exactly the batch size, the success counter is reduced by exactly the
batch size (the threshold path had just optimistically counted the last
document, so its net success is `+1 - batch size`), the batch is
discarded and nothing reaches the store; this holds for the
threshold-triggered flush (first conjunct) and the final flush (second
conjunct). -/
theorem c4_batch_write_failure_accounting (env : RunEnv) (s : LoopState)
    (doc : Document) (dur : Nat) (ts : List String)
    (hdoc : doc.nonempty = true)
    (hsz : isOkE (env.getsizeOf (env.all_files.getD s.processed_count "")) = true)
    (hfull : s.results_batch.length + 1 ≥ 20)
    (hfail : isOkE (env.insertMany s.writes_attempted) = false) :
    ((stepResult env s (some doc, dur, ts)).error_count
        = s.error_count + (s.results_batch.length + 1 : Int)
      ∧ (stepResult env s (some doc, dur, ts)).success_count
        = (s.success_count + 1) - (s.results_batch.length + 1 : Int)
      ∧ (stepResult env s (some doc, dur, ts)).results_batch = []
      ∧ (stepResult env s (some doc, dur, ts)).store = s.store)
    ∧ (s.results_batch ≠ [] →
       ((final_flush env s).error_count = s.error_count + (s.results_batch.length : Int)
        ∧ (final_flush env s).success_count
          = s.success_count - (s.results_batch.length : Int)
        ∧ (final_flush env s).store = s.store)) := by
  constructor
  · unfold stepResult
    dsimp only
    simp only [Nat.add_sub_cancel]
    split
    · rename_i e heq
      rw [heq] at hsz
      simp [isOkE] at hsz
    · try dsimp only
      rw [if_pos hdoc]
      split
      · split
        · try dsimp only
          refine ⟨?_, ?_, rfl, rfl⟩
          · simp only [List.length_append, List.length_cons, List.length_nil]
            push_cast
            ring
          · simp only [List.length_append, List.length_cons, List.length_nil]
            push_cast
            ring
        · rename_i u heq
          rw [heq] at hfail
          simp [isOkE] at hfail
      · rename_i hlt
        exfalso
        simp only [BATCH_SIZE, List.length_append, List.length_cons,
          List.length_nil] at hlt
        omega
  · intro hne
    unfold final_flush
    rw [if_neg (by simpa [List.isEmpty_iff] using hne)]
    split
    · exact ⟨rfl, rfl, rfl⟩
    · rename_i u heq
      rw [heq] at hfail
      simp [isOkE] at hfail

/-- Claim C3: a termination signal delivered while a non-empty partial
batch (fewer than 20 buffered successes) is in flight skips the final
flush — the store is exactly what the loop had flushed so far, and any
buffered document that had not been flushed is absent from the store;
an orderly shutdown at the same point would have appended precisely the
buffered batch. -/
theorem c3_interrupt_skips_final_flush (env : RunEnv) (stream : List StreamItem)
    (k : Nat) (_hk : k ≤ stream.length)
    (h0 : 0 < (runLoop env (stream.take k)).results_batch.length)
    (_hlt : (runLoop env (stream.take k)).results_batch.length < 20) :
    (pipelineRun env stream (some k)).1.store = (runLoop env (stream.take k)).store
    ∧ (∀ d, d ∈ (runLoop env (stream.take k)).results_batch →
        d ∉ (runLoop env (stream.take k)).store →
        d ∉ (pipelineRun env stream (some k)).1.store)
    ∧ (isOkE (env.insertMany (runLoop env (stream.take k)).writes_attempted) = true →
       (pipelineRun env (stream.take k) none).1.store
         = (runLoop env (stream.take k)).store
           ++ (runLoop env (stream.take k)).results_batch) := by
  refine ⟨rfl, ?_, ?_⟩
  · intro d _ hnot
    exact hnot
  · intro hok
    show (final_flush env (runLoop env (stream.take k))).store = _
    unfold final_flush
    rw [if_neg (by
      intro hemp
      rw [List.isEmpty_iff] at hemp
      rw [hemp] at h0
      simp at h0)]
    split
    · rename_i e heq
      rw [heq] at hok
      simp [isOkE] at hok
    · split
      · rfl
      · rfl

/-- Claim C5: with working progress lookups and a store that accepts
every write, an orderly run triggers a bulk write exactly once per 20
accumulated successes, leaves the remainder (at most 19) in the batch,
performs exactly one extra final write when — and only when — that
remainder is non-empty, and ends with every successful document in the
store. -/
theorem c5_flush_cadence (env : RunEnv) (stream : List StreamItem)
    (hg : ∀ p, isOkE (env.getsizeOf p) = true)
    (hins : ∀ n, isOkE (env.insertMany n) = true) :
    (runLoop env stream).writes_attempted = countTruthy stream / 20
    ∧ (runLoop env stream).results_batch.length = countTruthy stream % 20
    ∧ (pipelineRun env stream none).1.writes_attempted
        = countTruthy stream / 20 + (if countTruthy stream % 20 = 0 then 0 else 1)
    ∧ (pipelineRun env stream none).1.store.length = countTruthy stream := by
  obtain ⟨hb, hw⟩ := foldl_cadence env hg stream initState 0 rfl rfl
  have hs := foldl_storeLen env hg hins stream initState
  simp only [Nat.zero_add] at hb hw
  have hb' : (runLoop env stream).results_batch.length = countTruthy stream % 20 := hb
  have hw' : (runLoop env stream).writes_attempted = countTruthy stream / 20 := hw
  have hs' : (runLoop env stream).store.length
      + (runLoop env stream).results_batch.length = countTruthy stream := by
    simpa [initState] using hs
  refine ⟨hw', hb', ?_, ?_⟩
  · show (final_flush env (runLoop env stream)).writes_attempted = _
    unfold final_flush
    by_cases hemp : (runLoop env stream).results_batch.isEmpty = true
    · rw [if_pos hemp]
      rw [List.isEmpty_iff] at hemp
      rw [hemp] at hb'
      simp only [List.length_nil] at hb'
      rw [hw', ← hb']
      simp
    · rw [if_neg hemp]
      have hnz : countTruthy stream % 20 ≠ 0 := by
        intro hz
        rw [hz] at hb'
        rw [List.isEmpty_iff] at hemp
        exact hemp (List.eq_nil_of_length_eq_zero hb')
      split
      · rename_i e heq
        have h2 := hins (runLoop env stream).writes_attempted
        rw [heq] at h2
        simp [isOkE] at h2
      · split
        all_goals (dsimp only; rw [hw', if_neg hnz])
  · show (final_flush env (runLoop env stream)).store.length = _
    unfold final_flush
    by_cases hemp : (runLoop env stream).results_batch.isEmpty = true
    · rw [if_pos hemp]
      rw [List.isEmpty_iff] at hemp
      rw [hemp] at hs'
      simpa using hs'
    · rw [if_neg hemp]
      split
      · rename_i e heq
        have h2 := hins (runLoop env stream).writes_attempted
        rw [heq] at h2
        simp [isOkE] at h2
      · split
        all_goals (rw [List.length_append]; exact hs')

/-- The value the pool sends back to the coordinator for one path; the
error branch is unreachable because `process_file` always returns
normally (see `pyTry_ok_handler`). -/
def pool_result (fenv : FileEnv) (p : String) : StreamItem :=
  match process_file fenv p with
  | .ok r => r
  | .error _ => (none, 0, [])

/-- An `imap_unordered` result stream: results arrive in completion
order `order` (a list of backlog indices), each carrying the extraction
of the file at that index. -/
def completionStream (fenv : FileEnv) (files : List String) (order : List Nat) :
    List StreamItem :=
  order.map (fun i => pool_result fenv (files.getD i ""))

/-- Claim C7: the `n`-th progress line reports the size of the backlog
entry at submission-order index `n` (`all_files[processed_count-1]`),
regardless of which file's result was actually received; so whenever
the `n`-th completed file (backlog index `order[n]`) is a different
path, the line reports the size of a different file than the one
completed. -/
theorem c7_progress_size_uses_submission_index (fenv : FileEnv) (renv : RunEnv)
    (order : List Nat) (n : Nat)
    (hg : ∀ p, isOkE (renv.getsizeOf p) = true)
    (hn : n < order.length) :
    ((runLoop renv (completionStream fenv renv.all_files order)).sizeReportPaths.getD n ""
        = renv.all_files.getD n "")
    ∧ ((runLoop renv (completionStream fenv renv.all_files order)).sizeReportPaths.length
        = order.length)
    ∧ (renv.all_files.getD n "" ≠ renv.all_files.getD (order.getD n 0) "" →
       (runLoop renv (completionStream fenv renv.all_files order)).sizeReportPaths.getD n ""
         ≠ renv.all_files.getD (order.getD n 0) "") := by
  obtain ⟨hpaths0, hcount0⟩ :=
    foldl_sizeReport renv hg (completionStream fenv renv.all_files order) initState rfl
  have hpaths : (runLoop renv (completionStream fenv renv.all_files order)).sizeReportPaths
      = (List.range
          (runLoop renv (completionStream fenv renv.all_files order)).processed_count).map
        (fun i => renv.all_files.getD i "") := hpaths0
  have hcount : (runLoop renv (completionStream fenv renv.all_files order)).processed_count
      = initState.processed_count + (completionStream fenv renv.all_files order).length :=
    hcount0
  have hcount' : (runLoop renv (completionStream fenv renv.all_files order)).processed_count
      = order.length := by
    rw [hcount]
    simp [initState, completionStream]
  have hget : (runLoop renv (completionStream fenv renv.all_files order)).sizeReportPaths.getD n ""
      = renv.all_files.getD n "" := by
    rw [hpaths, hcount']
    rw [List.getD_eq_getElem?_getD, List.getElem?_map]
    rw [List.getElem?_range hn]
    rfl
  refine ⟨hget, ?_, fun hne => by rw [hget]; exact hne⟩
  rw [hpaths, hcount']
  simp

/-! ### Witness runs at concrete inputs -/

/-- A stream of 15 successful extractions: the interrupted-run
scenario. -/
def streamC3 : List StreamItem := List.replicate 15 (some (mkDoc "/m/a.jpg"), 0, [])

/-- Witness for claim C3: with 15 buffered successes, an interrupt
leaves the store empty even though an orderly shutdown at the same
point would have written all 15. -/
theorem c3_witness :
    (pipelineRun renvT streamC3 (some 15)).1.store = []
    ∧ mkDoc "/m/a.jpg" ∈ (runLoop renvT (streamC3.take 15)).results_batch
    ∧ mkDoc "/m/a.jpg" ∉ (pipelineRun renvT streamC3 (some 15)).1.store
    ∧ (pipelineRun renvT (streamC3.take 15) none).1.store.length = 15 := by
  obtain ⟨h1, h2, h3⟩ := c3_interrupt_skips_final_flush renvT streamC3 15
    (by decide) (by decide) (by decide)
  refine ⟨?_, ?_, ?_, ?_⟩
  · rw [h1]
    decide
  · decide
  · exact h2 (mkDoc "/m/a.jpg") (by decide) (by decide)
  · rw [h3 (by decide)]
    decide

/-- A loop state holding 19 optimistically-counted successes. -/
def s19 : LoopState :=
  { initState with results_batch := List.replicate 19 (mkDoc "/m/a.jpg")
                   success_count := 19 }

/-- Witness for claim C4: a 20th success triggers a flush against the
failing store, moving all 20 documents from success to failure and
discarding them; the final flush of the 19-document batch fails the
same way. -/
theorem c4_witness :
    (stepResult renvIF s19 (some (mkDoc "/m/b.jpg"), 0, [])).error_count = 20
    ∧ (stepResult renvIF s19 (some (mkDoc "/m/b.jpg"), 0, [])).success_count = 0
    ∧ (stepResult renvIF s19 (some (mkDoc "/m/b.jpg"), 0, [])).results_batch = []
    ∧ (stepResult renvIF s19 (some (mkDoc "/m/b.jpg"), 0, [])).store = []
    ∧ (final_flush renvIF s19).error_count = 19
    ∧ (final_flush renvIF s19).success_count = 0
    ∧ (final_flush renvIF s19).store = [] := by
  obtain ⟨⟨h1, h2, h3, h4⟩, h5⟩ := c4_batch_write_failure_accounting renvIF s19
    (mkDoc "/m/b.jpg") 0 [] (by decide) (by decide) (by decide) (by decide)
  obtain ⟨h6, h7, h8⟩ := h5 (by decide)
  refine ⟨?_, ?_, h3, ?_, ?_, ?_, ?_⟩
  · rw [h1]
    decide
  · rw [h2]
    decide
  · rw [h4]
    decide
  · rw [h6]
    decide
  · rw [h7]
    decide
  · rw [h8]
    decide

/-- A stream of 25 successful extractions: one full batch plus a
5-document remainder. -/
def streamC5 : List StreamItem := List.replicate 25 (some (mkDoc "/m/a.jpg"), 0, [])

/-- Witness for claim C5: 25 successes yield exactly one threshold
flush, a 5-document remainder, one additional final flush, and 25
stored documents. -/
theorem c5_witness :
    (runLoop renvT streamC5).writes_attempted = 1
    ∧ (runLoop renvT streamC5).results_batch.length = 5
    ∧ (pipelineRun renvT streamC5 none).1.writes_attempted = 2
    ∧ (pipelineRun renvT streamC5 none).1.store.length = 25 := by
  obtain ⟨h1, h2, h3, h4⟩ := c5_flush_cadence renvT streamC5 (fun p => rfl) (fun n => rfl)
  have hc : countTruthy streamC5 = 25 := by decide
  rw [hc] at h1 h2 h3 h4
  norm_num at h1 h2 h3
  exact ⟨h1, h2, h3, h4⟩

/-- Witness for claim C7: with completion order `[1, 0]` over the
two-file backlog, the first progress line reports the first backlog
entry although the file completed first was the second one — a
different path. -/
theorem c7_witness :
    (runLoop renvT (completionStream fenvT renvT.all_files [1, 0])).sizeReportPaths.getD 0 ""
      = renvT.all_files.getD 0 ""
    ∧ (runLoop renvT (completionStream fenvT renvT.all_files [1, 0])).sizeReportPaths.getD 0 ""
      ≠ renvT.all_files.getD ([1, 0].getD 0 0) "" := by
  obtain ⟨h1, _h2, h3⟩ := c7_progress_size_uses_submission_index fenvT renvT [1, 0] 0
    (fun p => rfl) (by decide)
  exact ⟨h1, h3 (by decide)⟩

end LoadContent
